import Mathlib

/-
Shallow embedding of the ovsdbapp core under verification:
  ovsdbapp/backend/ovs_idl/idlutils.py   (record resolution, condition matching,
                                          db_replace_record)
  ovsdbapp/backend/ovs_idl/transaction.py (Transaction.do_commit retry loop)

Python values materialized from OVSDB columns are scalars (strings, integers,
uuid.UUID objects), lists, dicts, or None.  They are embedded as the inductive
type `Value` below.  Fallible Python code (raised exceptions) is embedded as
`Except`.  Machine integers do not occur in the modelled code paths.
-/

deriving instance DecidableEq for Except

namespace Ovsdbapp

/-- Scalar atoms: Python strings, ints, and uuid.UUID objects.  A uuid.UUID
carries its canonical lower-case textual form; it is a distinct Python type
from str, so `Atom.u s` and `Atom.s s` compare unequal, exactly as
`uuid.UUID(x) == x` is False in Python. -/
inductive Atom where
  | s (str : String)
  | i (int : Int)
  | u (uuidText : String)
deriving DecidableEq, Repr

/-- Python values reachable in the modelled code: None, a scalar atom, a list
of atoms, or a dict from atoms to atoms.  Row references stored in columns are
materialized as their uuids (Atom.u), matching how get_column_value exposes
them.  Dicts are association lists with distinct keys, in insertion order. -/
inductive Value where
  | noneV
  | atom (a : Atom)
  | vlist (xs : List Atom)
  | vmap (m : List (Atom × Atom))
deriving DecidableEq, Repr

/-- Python runtime types, for the `type(match) is not type(val)` check in
condition_match. -/
inductive PyTy where
  | tNone | tStr | tInt | tUuid | tList | tDict
deriving DecidableEq, Repr

def Value.ty : Value → PyTy
  | Value.noneV => PyTy.tNone
  | Value.atom (Atom.s _) => PyTy.tStr
  | Value.atom (Atom.i _) => PyTy.tInt
  | Value.atom (Atom.u _) => PyTy.tUuid
  | Value.vlist _ => PyTy.tList
  | Value.vmap _ => PyTy.tDict

/-- Python truthiness of a `Value` ("" , 0, [], dict() and None are falsy;
uuid.UUID objects are always truthy). -/
def Value.truthy : Value → Bool
  | Value.noneV => false
  | Value.atom (Atom.s str) => !(str == "")
  | Value.atom (Atom.i n) => !(n == 0)
  | Value.atom (Atom.u _) => true
  | Value.vlist xs => !xs.isEmpty
  | Value.vmap m => !m.isEmpty

/-- One column of a row: the raw stored value together with the per-column
schema flag is_optional() consulted by idlutils. -/
structure Column where
  raw : Value
  is_opt : Bool
deriving DecidableEq, Repr

/-- A mirrored IDL row: its server-assigned uuid (canonical lower-case text)
and its named columns. -/
structure Row where
  uuid : String
  cols : List (String × Column)
deriving DecidableEq, Repr

def Row.getCol (r : Row) (c : String) : Option Column :=
  (r.cols.find? (fun p => p.1 == c)).map Prod.snd

/-- Exceptions raised by the condition-matching code paths. -/
inductive CMErr where
  | valueError
  | notImplemented
  | attrError
  | keyError
  | typeError
  | indexError
deriving DecidableEq, Repr

/-- idlutils.get_column_value: the synthetic `_uuid` pseudo-column returns the
row identity; a missing column raises AttributeError (getattr); a non-empty
list collapses to its first element when the column is optional.  Row
references inside lists are already materialized as their uuids in `Value`. -/
def get_column_value (row : Row) (col : String) : Except CMErr Value :=
  if col = "_uuid" then Except.ok (Value.atom (Atom.u row.uuid))
  else
    match Row.getCol row col with
    | Option.none => Except.error CMErr.attrError
    | some c =>
      match c.raw with
      | Value.vlist (x :: xs) =>
        if c.is_opt then Except.ok (Value.atom x)
        else Except.ok (Value.vlist (x :: xs))
      | v => Except.ok v

/-- Substring test, modelling the Python `in` operator on two strings. -/
def strContains (hay pat : String) : Bool :=
  pat == "" || (hay.splitOn pat).length > 1

/-- The Python `key in val` membership test as used by condition_match: key
lookup for dicts, element membership for lists, substring test for a string
key in a string value; `in` on None, ints or uuids raises TypeError, as does a
non-string key against a string value. -/
def pyContains (val : Value) (k : Atom) : Except CMErr Bool :=
  match val with
  | Value.vmap m => Except.ok (m.find? (fun q => q.1 == k)).isSome
  | Value.vlist xs => Except.ok (xs.contains k)
  | Value.atom (Atom.s hay) =>
    match k with
    | Atom.s pat => Except.ok (strContains hay pat)
    | _ => Except.error CMErr.typeError
  | _ => Except.error CMErr.typeError

/-- The Python `val[key]` indexing as reachable from condition_match's map
loop: dict lookup for dicts (the loop has already established membership, so
KeyError is the impossible-miss case); integer indexing (with negative
wrap-around) for lists; a string value raises TypeError for the string keys
that can pass the membership guard. -/
def pyIndex (val : Value) (k : Atom) : Except CMErr Atom :=
  match val with
  | Value.vmap m =>
    match m.find? (fun q => q.1 == k) with
    | some q => Except.ok q.2
    | Option.none => Except.error CMErr.keyError
  | Value.vlist xs =>
    match k with
    | Atom.i n =>
      let idx : Int := if n < 0 then n + xs.length else n
      if h : 0 ≤ idx ∧ idx.toNat < xs.length then Except.ok (xs.get ⟨idx.toNat, h.2⟩)
      else Except.error CMErr.indexError
    | _ => Except.error CMErr.typeError
  | _ => Except.error CMErr.typeError

/-- The dict-operand loop of condition_match, one iteration per operand key in
insertion order (Python iterates the dict's keys; iterating key/value pairs is
the same because dict keys are unique):
for key in match:
  `=`  : `if key not in val or match[key] != val[key]: matched = False; break`
  `!=` : `if key not in val or match[key] == val[key]: matched = False; break`
  else : `raise NotImplementedError()` . -/
def map_branch (op : String) : List (Atom × Atom) → Value → Except CMErr Bool
  | [], _ => Except.ok true
  | (k, x) :: rest, val =>
    if op = "=" then
      match pyContains val k with
      | Except.error e => Except.error e
      | Except.ok mem =>
        if mem = false then Except.ok false
        else
          match pyIndex val k with
          | Except.error e => Except.error e
          | Except.ok w =>
            if !(x == w) then Except.ok false else map_branch op rest val
    else if op = "!=" then
      match pyContains val k with
      | Except.error e => Except.error e
      | Except.ok mem =>
        if mem = false then Except.ok false
        else
          match pyIndex val k with
          | Except.error e => Except.error e
          | Except.ok w =>
            if x == w then Except.ok false else map_branch op rest val
    else Except.error CMErr.notImplemented

/-- The `=` loop over a list operand: `for elem in set(match): if elem not in
val: matched = False; break`.  Iterating the list instead of its set leaves
the result unchanged (duplicates just re-test the same membership). -/
def list_eq_loop : List Atom → Value → Except CMErr Bool
  | [], _ => Except.ok true
  | e :: rest, val =>
    match pyContains val e with
    | Except.error err => Except.error err
    | Except.ok mem => if mem then list_eq_loop rest val else Except.ok false

/-- The `!=` loop over a list operand: `for elem in set(match): if elem in
val: matched = False; break`. -/
def list_neq_loop : List Atom → Value → Except CMErr Bool
  | [], _ => Except.ok true
  | e :: rest, val =>
    match pyContains val e with
    | Except.error err => Except.error err
    | Except.ok mem => if mem then Except.ok false else list_neq_loop rest val

/-- The list-operand branch of condition_match: when either side is falsy,
fall back to direct (in)equality of the two values; otherwise relaxed set
semantics.  Unsupported operators raise NotImplementedError before any
emptiness test. -/
def list_branch (op : String) (xs : List Atom) (val : Value) : Except CMErr Bool :=
  if op = "=" then
    if !val.truthy || xs.isEmpty then Except.ok (val == Value.vlist xs)
    else list_eq_loop xs val
  else if op = "!=" then
    if !val.truthy || xs.isEmpty then Except.ok (!(val == Value.vlist xs))
    else list_neq_loop xs val
  else Except.error CMErr.notImplemented

/-- The scalar-operand branch: direct equality / inequality, NotImplementedError
otherwise. -/
def scalar_branch (op : String) (mtc val : Value) : Except CMErr Bool :=
  if op = "=" then Except.ok (val == mtc)
  else if op = "!=" then Except.ok (!(val == mtc))
  else Except.error CMErr.notImplemented

/-- The type-compatibility gate of condition_match.  When the operand and the
value have different Python types and are not both strings: if either side is
falsy, consult the column schema (`row._table.columns[col]` - a KeyError for
the `_uuid` pseudo-column); for an optional column normalize an empty-list
side to None (Python `match == []` is only True for an actual empty list);
in every other case raise ValueError("Column type and condition operand do
not match"). -/
def cm_normalize (row : Row) (col : String) (mtc val : Value) :
    Except CMErr (Value × Value) :=
  if mtc.ty ≠ val.ty ∧ ¬(mtc.ty = PyTy.tStr ∧ val.ty = PyTy.tStr) then
    if ¬mtc.truthy ∨ ¬val.truthy then
      match Row.getCol row col with
      | Option.none => Except.error CMErr.keyError
      | some c =>
        if c.is_opt then
          if mtc = Value.vlist [] then Except.ok (Value.noneV, val)
          else if val = Value.vlist [] then Except.ok (mtc, Value.noneV)
          else Except.ok (mtc, val)
        else Except.error CMErr.valueError
    else Except.error CMErr.valueError
  else Except.ok (mtc, val)

/-- idlutils.condition_match(row, (col, op, match)): materialize the column
value, run the type gate, then dispatch on the (possibly normalized) operand
shape: dict loop, list branch, or scalar comparison. -/
def condition_match (row : Row) (col : String) (op : String) (mtc : Value) :
    Except CMErr Bool :=
  match get_column_value row col with
  | Except.error e => Except.error e
  | Except.ok val =>
    match cm_normalize row col mtc val with
    | Except.error e => Except.error e
    | Except.ok (m2, v2) =>
      match m2 with
      | Value.vmap pairs => map_branch op pairs v2
      | Value.vlist xs => list_branch op xs v2
      | _ => scalar_branch op m2 v2

/-- idlutils.row_match: conjunction of condition_match over the conditions,
propagating the first raised exception. -/
def row_match (row : Row) : List (String × String × Value) → Except CMErr Bool
  | [] => Except.ok true
  | (col, op, mtc) :: rest =>
    match condition_match row col op mtc with
    | Except.error e => Except.error e
    | Except.ok b => if b then row_match row rest else Except.ok false

/-! Record resolution: idlutils.row_by_record / row_by_value and the static
lookup-strategy table. -/

/-- idlutils.RowLookup: (table, column, uuid_column), each possibly None. -/
structure RowLookup where
  table : Option String
  column : Option String
  uuid_column : Option String
deriving DecidableEq, Repr

/-- idlutils._LOOKUP_TABLE: tables with no index in OVSDB and special record
lookup rules, copied entry for entry from the source. -/
def _LOOKUP_TABLE : List (String × RowLookup) :=
  [("Controller", ⟨some "Bridge", some "name", some "controller"⟩),
   ("Flow_Table", ⟨some "Flow_Table", some "name", Option.none⟩),
   ("IPFIX", ⟨some "Bridge", some "name", some "ipfix"⟩),
   ("Mirror", ⟨some "Mirror", some "name", Option.none⟩),
   ("NetFlow", ⟨some "Bridge", some "name", some "netflow"⟩),
   ("Open_vSwitch", ⟨some "Open_vSwitch", Option.none, Option.none⟩),
   ("QoS", ⟨some "Port", some "name", some "qos"⟩),
   ("Queue", ⟨Option.none, Option.none, Option.none⟩),
   ("sFlow", ⟨some "Bridge", some "name", some "sflow"⟩),
   ("SSL", ⟨some "Open_vSwitch", Option.none, some "ssl"⟩)]

/-- One mirrored table: its rows (a dict keyed by uuid, in insertion order,
with unique uuids) and its schema index definitions (lists of column names). -/
structure Table where
  rows : List Row
  indexes : List (List String)
deriving DecidableEq, Repr

/-- idlutils.get_index_column: the name of the sole column of the sole index,
when the table has exactly one single-column index. -/
def get_index_column (t : Table) : Option String :=
  match t.indexes with
  | [idx] =>
    match idx with
    | [name] => some name
    | _ => Option.none
  | _ => Option.none

/-- The dict lookup `t.rows[uuid]` (rows are keyed by their uuid). -/
def Table.rowByUuid (t : Table) (u : String) : Option Row :=
  t.rows.find? (fun r => r.uuid == u)

/-- The mirrored database: `idl.tables`, a dict from table name to table. -/
structure Idl where
  tables : List (String × Table)
deriving DecidableEq, Repr

def Idl.getTable (idl_ : Idl) (name : String) : Option Table :=
  (idl_.tables.find? (fun p => p.1 == name)).map Prod.snd

/-- Exceptions escaping the record-resolution code paths.  `rowNotFound`
carries (table, col, match) as the RowNotFound OvsdbAppException does;
`stopIteration` is the bare StopIteration escaping `next(iter(...))` on an
empty table; `typeError` is a TypeError (see record_lookup below). -/
inductive ResolveErr where
  | rowNotFound (table : String) (col : String) (mtc : Value)
  | typeError (msg : String)
  | stopIteration
  | keyError (key : String)
  | attrError (attr : String)
  | danglingRef
deriving DecidableEq, Repr

/-- Python getattr(row, col) on a mirrored row: the raw stored column value,
AttributeError when the column does not exist. -/
def getattrRaw (r : Row) (col : String) : Except ResolveErr Value :=
  match Row.getCol r col with
  | some c => Except.ok c.raw
  | Option.none => Except.error (ResolveErr.attrError col)

/-- The scan loop of idlutils.row_by_value: first row whose raw column value
equals the match value. -/
def find_row_by_value : List Row → String → Value → Except ResolveErr (Option Row)
  | [], _, _ => Except.ok Option.none
  | r :: rest, col, m =>
    match getattrRaw r col with
    | Except.error e => Except.error e
    | Except.ok v =>
      if v == m then Except.ok (some r) else find_row_by_value rest col m

/-- idlutils.row_by_value(idl_, table, column, match, default): linear scan;
on a miss return the default when one was supplied (`default=_NO_DEFAULT`
embeds as `Option.none`), else raise RowNotFound(table, column, match). -/
def row_by_value (idl_ : Idl) (table column : String) (mtc : Value)
    (dflt : Option Row) : Except ResolveErr Row :=
  match idl_.getTable table with
  | Option.none => Except.error (ResolveErr.keyError table)
  | some tab =>
    match find_row_by_value tab.rows column mtc with
    | Except.error e => Except.error e
    | Except.ok (some r) => Except.ok r
    | Except.ok Option.none =>
      match dflt with
      | some d => Except.ok d
      | Option.none => Except.error (ResolveErr.rowNotFound table column mtc)

/-- A hexadecimal digit, for the canonical textual uuid form. -/
def isHexDigit (c : Char) : Bool :=
  c.isDigit || ('a' ≤ c && c ≤ 'f') || ('A' ≤ c && c ≤ 'F')

/-- uuid.UUID(record) on a string, restricted to the canonical hyphenated
8-4-4-4-12 form (the form OVSDB emits); parsing normalizes to lower case.
Returns the canonical text on success, `Option.none` for the ValueError the
constructor raises on a non-uuid string. -/
def uuidParse (record : String) : Option String :=
  let cs := record.toList
  if cs.length = 36 ∧
      (cs.enum.all fun p =>
        if p.1 = 8 ∨ p.1 = 13 ∨ p.1 = 18 ∨ p.1 = 23 then p.2 = '-'
        else isHexDigit p.2) then
    some (String.mk (cs.map Char.toLower))
  else Option.none

/-- The record argument of row_by_record: either an actual uuid.UUID instance
or a string. -/
inductive Record where
  | uuidObj (u : String)
  | str (s : String)
deriving DecidableEq, Repr

/-- idlutils._LOOKUP_TABLE.get(table, RowLookup(table, get_index_column(t), None)). -/
def lookup_table_get (table : String) (t : Table) : RowLookup :=
  match _LOOKUP_TABLE.find? (fun p => p.1 == table) with
  | some p => p.2
  | Option.none => ⟨some table, get_index_column t, Option.none⟩

/-- The lookup-strategy tail of row_by_record (source lines 88-100), reached
when the record is not resolved as a uuid.

The `rl.table is None` branch executes the source line
  `raise ValueError("Table %s can only be queried by UUID") % table`
whose `%` is applied to the ValueError instance, not to the format string, so
evaluating the raised expression raises
TypeError("unsupported operand type for percent: ValueError and str") and the
intended ValueError never escapes; the embedding returns that TypeError.

The `rl.column is None` branch is `next(iter(t.rows.values()))` on the
QUERIED table `t` (not rl.table): first row, or a bare StopIteration when the
queried table is empty.

In the back-reference branch the source column holds the referenced Row
objects themselves and returns rows[0]; the model stores row references as
their uuids and dereferences them in the queried table, observably the same
on well-formed mirrored state. -/
def record_lookup (idl_ : Idl) (table : String) (t : Table) (record : Value) :
    Except ResolveErr Row :=
  let rl := lookup_table_get table t
  match rl.table with
  | Option.none =>
    Except.error (ResolveErr.typeError
      "unsupported operand type for percent: ValueError and str")
  | some rtable =>
    match rl.column with
    | Option.none =>
      match t.rows with
      | [] => Except.error ResolveErr.stopIteration
      | r :: _ => Except.ok r
    | some colName =>
      match row_by_value idl_ rtable colName record Option.none with
      | Except.error e => Except.error e
      | Except.ok row =>
        match rl.uuid_column with
        | Option.none => Except.ok row
        | some uc =>
          match getattrRaw row uc with
          | Except.error e => Except.error e
          | Except.ok (Value.vlist us) =>
            match us with
            | [Atom.u ustr] =>
              match t.rowByUuid ustr with
              | some r => Except.ok r
              | Option.none => Except.error ResolveErr.danglingRef
            | [_] => Except.error ResolveErr.danglingRef
            | _ => Except.error (ResolveErr.rowNotFound table "record" record)
          | Except.ok _ =>
            Except.error (ResolveErr.typeError "object has no len")

/-- idlutils.row_by_record(idl_, table, record).  `plat` embeds sys.platform.
A uuid (instance or parsable string) is looked up directly in the queried
table's rows; on a miss (the KeyError branch) every platform except win32
raises RowNotFound(table, 'uuid', record), while win32 falls through to the
lookup-strategy tail.  A string that fails uuid parsing (the ValueError
branch) always falls through to the lookup-strategy tail. -/
def row_by_record (idl_ : Idl) (plat : String) (table : String)
    (record : Record) : Except ResolveErr Row :=
  match idl_.getTable table with
  | Option.none => Except.error (ResolveErr.keyError table)
  | some t =>
    match record with
    | Record.uuidObj u =>
      match t.rowByUuid u with
      | some r => Except.ok r
      | Option.none =>
        if plat ≠ "win32" then
          Except.error (ResolveErr.rowNotFound table "uuid" (Value.atom (Atom.u u)))
        else record_lookup idl_ table t (Value.atom (Atom.u u))
    | Record.str srec =>
      match uuidParse srec with
      | some u =>
        match t.rowByUuid u with
        | some r => Except.ok r
        | Option.none =>
          if plat ≠ "win32" then
            Except.error (ResolveErr.rowNotFound table "uuid" (Value.atom (Atom.s srec)))
          else record_lookup idl_ table t (Value.atom (Atom.s srec))
      | Option.none => record_lookup idl_ table t (Value.atom (Atom.s srec))

/-! Transaction.do_commit (transaction.py): the retry/timeout loop, embedded
as a fuel-indexed recursion over an environment that supplies the external
commit handle's behavior per attempt and the wall clock observed at each
top-of-loop timeout check. -/

/-- The statuses idl.Transaction.commit_block can report (plus a catch-all
for the defensive unknown-status branch). -/
inductive TxnStatus where
  | tryAgain
  | error
  | notLocked
  | aborted
  | unchanged
  | success
  | unknown (s : String)
deriving DecidableEq, Repr

/-- An api.Command as do_commit observes it: its `result` attribute, and
whether its run_idl raises when applied to the handle. -/
structure Command where
  result : Value
  raises : Bool
deriving DecidableEq, Repr

/-- The Transaction state do_commit reads: the ordered command queue and the
timeout / error-policy flags set at construction. -/
structure Transaction where
  commands : List Command
  timeout : Nat
  check_error : Bool
  log_errors : Bool
deriving DecidableEq, Repr

/-- External behavior per attempt k (0-based): the status commit_block
reports, the text txn.get_error() returns, and the elapsed time
(time.time() - start_time) observed by the timeout check at the top of the
loop iteration whose `attempts` counter equals k. -/
structure HandleEnv where
  status : Nat → TxnStatus
  errorText : Nat → String
  elapsed : Nat → Nat

/-- Observable side effects of one do_commit run, in order: log calls,
txn.abort(), self.api.idl.run(), and each command's post_commit step. -/
inductive Event where
  | debugRun (n i : Nat)
  | txnAbort
  | debugTryAgain
  | idlRun
  | logError (msg : String)
  | debugAborted
  | debugUnchanged
  | debugUnknownStatus (s : String)
  | postCommitCmd (i : Nat)
deriving DecidableEq, Repr

/-- The single terminal outcome of a do_commit run. -/
inductive Outcome where
  | results (rs : List Value)
  | noResult
  | runtimeError (msg : String)
  | reraised
  | fuelOut
deriving DecidableEq, Repr

/-- The command-application loop of one attempt (`for i, command in
enumerate(self.commands)` with `attempts` already incremented to n): log each
command, and on a raising run_idl abort the handle and, in strict-error mode,
let the exception propagate (the Bool result); in non-strict mode keep
applying the remaining commands.  Exceptions and aborts beyond that are the
external handle's business. -/
def run_idl_loop (ce : Bool) (n : Nat) : Nat → List Command → List Event × Bool
  | _, [] => ([], false)
  | i, c :: rest =>
    if c.raises then
      if ce then ([Event.debugRun n i, Event.txnAbort], true)
      else
        let r := run_idl_loop ce n (i + 1) rest
        (Event.debugRun n i :: Event.txnAbort :: r.1, r.2)
    else
      let r := run_idl_loop ce n (i + 1) rest
      (Event.debugRun n i :: r.1, r.2)

/-- The per-command debug-log events of an attempt with counter n when no
command raises. -/
def cmdRunEvents (n : Nat) : Nat → List Command → List Event
  | _, [] => []
  | i, _ :: rest => Event.debugRun n i :: cmdRunEvents n (i + 1) rest

/-- Transaction.post_commit(txn): every command's post_commit step, in
order. -/
def postCommitEvents : Nat → List Command → List Event
  | _, [] => []
  | i, _ :: rest => Event.postCommitCmd i :: postCommitEvents (i + 1) rest

/-- The NOT_LOCKED diagnostic text built by do_commit (source wording, with
its contraction spelled out). -/
def not_locked_text : String :=
  "The transaction failed because the IDL has been configured to require " ++
  "a database lock but did not get it yet or has already lost it"

/-- Transaction.do_commit's while-True loop, starting at attempts counter k,
with explicit fuel bounding the number of remaining iterations (the source
loop can spin forever on TRY_AGAIN while the clock stands still; `fuelOut`
marks a run that did not terminate within the modelled bound).

Per iteration: (1) `if attempts > 0 and self.timeout_exceeded()` - note the
first attempt is exempt and timeout_exceeded is a strict comparison - raise
RuntimeError("OVS transaction timed out"); (2) increment attempts, open a
fresh handle, pre_commit (a no-op in this class), apply every command;
(3) dispatch on commit_block's status: TRY_AGAIN logs, calls idl.run() and
loops; ERROR / NOT_LOCKED build the diagnostic message, log it when
log_errors, raise RuntimeError(msg) when check_error and otherwise return no
result; ABORTED logs and returns no result; UNCHANGED logs and falls to the
result-list return; SUCCESS runs post_commit then falls to the result-list
return; an unknown status logs and falls to the result-list return. -/
def do_commit_aux (env : HandleEnv) (t : Transaction) : Nat → Nat → Outcome × List Event
  | _, 0 => (Outcome.fuelOut, [])
  | k, fuel + 1 =>
    if 0 < k ∧ t.timeout < env.elapsed k then
      (Outcome.runtimeError "OVS transaction timed out", [])
    else
      let n := k + 1
      let run := run_idl_loop t.check_error n 0 t.commands
      if run.2 then (Outcome.reraised, run.1)
      else
        match env.status k with
        | TxnStatus.tryAgain =>
          let rest := do_commit_aux env t (k + 1) fuel
          (rest.1, run.1 ++ [Event.debugTryAgain, Event.idlRun] ++ rest.2)
        | TxnStatus.error =>
          let msg := "OVSDB Error: " ++ env.errorText k
          ((if t.check_error then Outcome.runtimeError msg else Outcome.noResult),
            run.1 ++ (if t.log_errors then [Event.logError msg] else []))
        | TxnStatus.notLocked =>
          let msg := "OVSDB Error: " ++ not_locked_text
          ((if t.check_error then Outcome.runtimeError msg else Outcome.noResult),
            run.1 ++ (if t.log_errors then [Event.logError msg] else []))
        | TxnStatus.aborted =>
          (Outcome.noResult, run.1 ++ [Event.debugAborted])
        | TxnStatus.unchanged =>
          (Outcome.results (t.commands.map Command.result),
            run.1 ++ [Event.debugUnchanged])
        | TxnStatus.success =>
          (Outcome.results (t.commands.map Command.result),
            run.1 ++ postCommitEvents 0 t.commands)
        | TxnStatus.unknown s =>
          (Outcome.results (t.commands.map Command.result),
            run.1 ++ [Event.debugUnknownStatus s])

/-- Transaction.do_commit: the loop entered with attempts = 0. -/
def do_commit (env : HandleEnv) (t : Transaction) (fuel : Nat) : Outcome × List Event :=
  do_commit_aux env t 0 fuel

/-! idlutils.db_replace_record: replace api.Command objects with their
results, one container level deep. -/

/-- A Python object as db_replace_record inspects it: a scalar, None, a
string (a Sequence explicitly excluded by the source), an api.Command
carrying its result, a mutable dict, a mutable list, or an immutable
tuple. -/
inductive DbObj where
  | atomV (a : Atom)
  | noneV
  | strV (s : String)
  | cmdV (result : DbObj)
  | mapV (entries : List (String × DbObj))
  | listV (xs : List DbObj)
  | tupleV (xs : List DbObj)

def DbObj.isCmd : DbObj → Bool
  | DbObj.cmdV _ => true
  | _ => false

/-- getattr(v, "result", v): a Command becomes its result, anything else is
untouched. -/
def replaceIfCmd : DbObj → DbObj
  | DbObj.cmdV r => r
  | o => o

/-- idlutils.db_replace_record(obj): in a Mapping, each value that is a
Command is overwritten in place with its result; in a non-string Sequence,
each Command element is overwritten in place, except that the first
item-assignment on a tuple raises TypeError and the function instead returns
`type(obj)(getattr(v, "result", v) for v in obj)` - a fresh tuple with every
Command replaced; a bare Command becomes its result; everything else is
returned untouched.  Only the top container level is inspected. -/
def db_replace_record : DbObj → DbObj
  | DbObj.mapV es => DbObj.mapV (es.map fun p => (p.1, replaceIfCmd p.2))
  | DbObj.listV xs => DbObj.listV (xs.map replaceIfCmd)
  | DbObj.tupleV xs => DbObj.tupleV (xs.map replaceIfCmd)
  | DbObj.cmdV r => r
  | o => o

/-- Whether db_replace_record returns the very object it was handed (Python
identity): dicts and lists are mutated in place and returned; a tuple is
returned as-is unless it contains a Command, which forces a fresh tuple; a
bare Command yields its result object; scalars, None and strings are returned
untouched. -/
def db_replace_same_object : DbObj → Bool
  | DbObj.mapV _ => true
  | DbObj.listV _ => true
  | DbObj.tupleV xs => !xs.any DbObj.isCmd
  | DbObj.cmdV _ => false
  | _ => true

/-- No value / element / the object itself is a Command at the level
db_replace_record inspects. -/
def topLevelNoCmd : DbObj → Bool
  | DbObj.cmdV _ => false
  | DbObj.mapV es => es.all fun p => !(p.2.isCmd)
  | DbObj.listV xs => xs.all fun v => !v.isCmd
  | DbObj.tupleV xs => xs.all fun v => !v.isCmd
  | _ => true

/-! Concrete fixtures used by the theorems below. -/

/-- A row with a non-optional map column "ids" holding a: 1, b: 2 and a
non-optional integer column "n" holding 5. -/
def exRow : Row :=
  ⟨"11111111-1111-1111-1111-111111111111",
   [("ids", ⟨Value.vmap [(Atom.s "a", Atom.s "1"), (Atom.s "b", Atom.s "2")], false⟩),
    ("n", ⟨Value.atom (Atom.i 5), false⟩)]⟩

/-- A database holding only the uuid-only table Queue, empty. -/
def queueIdl : Idl := ⟨[("Queue", ⟨[], []⟩)]⟩

/-- A database holding only Flow_Table (name-indexed), empty. -/
def flowIdl : Idl := ⟨[("Flow_Table", ⟨[], [["name"]]⟩)]⟩

def sslRow : Row := ⟨"aaaaaaaa-1111-1111-1111-111111111111", []⟩

def ovsRow : Row := ⟨"bbbbbbbb-2222-2222-2222-222222222222", []⟩

/-- A database where the SSL table and the Open_vSwitch table each hold one
row, and those rows differ: SSL's lookup strategy names Open_vSwitch as its
target table with no lookup column. -/
def sslIdl : Idl := ⟨[("SSL", ⟨[sslRow], []⟩), ("Open_vSwitch", ⟨[ovsRow], []⟩)]⟩

/-- One non-raising command whose result is the integer 1. -/
def cmdA : Command := ⟨Value.atom (Atom.i 1), false⟩

/-- A transaction with one command, timeout 10, check_error and log_errors
enabled. -/
def txnA : Transaction := ⟨[cmdA], 10, true, true⟩

/-- A handle that always reports TRY_AGAIN while the clock already reads 100. -/
def envTry : HandleEnv := ⟨fun _ => TxnStatus.tryAgain, fun _ => "", fun _ => 100⟩

/-- envTry with the clock frozen at 0 instead. -/
def envTryZero : HandleEnv := ⟨fun _ => TxnStatus.tryAgain, fun _ => "", fun _ => 0⟩

/-- A handle that always reports ERROR with error text "boom", clock at 0. -/
def envErr : HandleEnv := ⟨fun _ => TxnStatus.error, fun _ => "boom", fun _ => 0⟩

/-- A handle that always reports SUCCESS, clock at 0. -/
def envSucc : HandleEnv := ⟨fun _ => TxnStatus.success, fun _ => "", fun _ => 0⟩

/-! Helper lemmas (shared; not tied to any single claim). -/

/-- The dict `!=` loop against a dict value computes: every operand key is
present in the value with a differing mapped value. -/
theorem map_branch_neq_eq_all (vm : List (Atom × Atom)) :
    ∀ mm : List (Atom × Atom),
      map_branch "!=" mm (Value.vmap vm) =
        Except.ok (mm.all fun p =>
          match vm.find? (fun q => q.1 == p.1) with
          | some q => !(p.2 == q.2)
          | Option.none => false) := by
  intro mm
  induction mm with
  | nil => rfl
  | cons hd tl ih =>
    obtain ⟨k, x⟩ := hd
    simp only [map_branch, pyContains, pyIndex, List.all_cons]
    rw [if_pos trivial]
    cases hfind : vm.find? fun q => q.1 == k with
    | none => simp [hfind]
    | some q =>
      cases hb : x == q.2 with
      | true => simp [hfind, hb]
      | false => simp [hfind, hb, ih]

/-- When no command raises, the apply loop just logs every command and
reports no escaped exception. -/
theorem run_idl_loop_no_raise (ce : Bool) (n : Nat) :
    ∀ (cmds : List Command) (i : Nat), (∀ c ∈ cmds, c.raises = false) →
      run_idl_loop ce n i cmds = (cmdRunEvents n i cmds, false) := by
  intro cmds
  induction cmds with
  | nil => intro i _; rfl
  | cons c rest ih =>
    intro i h
    have hc : c.raises = false := h c (List.mem_cons_self _ _)
    simp only [run_idl_loop, cmdRunEvents, hc, Bool.false_eq_true, if_false,
      ih (i + 1) fun d hd => h d (List.mem_cons_of_mem _ hd)]

/-! Claim C1 (corrected). -/

/-- Claim C1 counterexample: on a row whose map column holds a: 1, b: 2, the
`!=` condition with operand a: 1, b: 3 has an operand key (b) mapped to a
different value, and the operand c: 9 has a key missing from the value, so
the claim says both must match; condition_match returns no match for both,
because the code requires every operand key to be present with a differing
value. -/
theorem map_neq_partial_difference_not_matched :
    condition_match exRow "ids" "!="
        (Value.vmap [(Atom.s "a", Atom.s "1"), (Atom.s "b", Atom.s "3")]) =
      Except.ok false ∧
    condition_match exRow "ids" "!=" (Value.vmap [(Atom.s "c", Atom.s "9")]) =
      Except.ok false := by
  constructor <;> decide

/-- Claim C1 (amended): for a row whose column value is a map and a map
operand, condition_match with `!=` matches exactly when every operand key
exists in the value with a differing mapped value; a single missing or equal
key yields no match (and an empty operand matches vacuously). -/
theorem map_neq_requires_all_keys_differ (row : Row) (col : String) (c : Column)
    (vm mm : List (Atom × Atom))
    (hcol : col ≠ "_uuid") (hc : Row.getCol row col = some c)
    (hraw : c.raw = Value.vmap vm) :
    condition_match row col "!=" (Value.vmap mm) =
      Except.ok (mm.all fun p =>
        match vm.find? (fun q => q.1 == p.1) with
        | some q => !(p.2 == q.2)
        | Option.none => false) := by
  have hval : get_column_value row col = Except.ok (Value.vmap vm) := by
    simp only [get_column_value, if_neg hcol, hc, hraw]
  simp only [condition_match, hval, cm_normalize]
  rw [if_neg (by simp [Value.ty])]
  exact map_branch_neq_eq_all vm mm

/-- Claim C1 witness: instantiating the amended theorem at the fixture row
with the all-keys-differing operand a: 2 evaluates to a match. -/
theorem map_neq_requires_all_keys_differ_inst :
    condition_match exRow "ids" "!=" (Value.vmap [(Atom.s "a", Atom.s "2")]) =
      Except.ok ([((Atom.s "a" : Atom), (Atom.s "2" : Atom))].all fun p =>
        match [(Atom.s "a", Atom.s "1"), (Atom.s "b", Atom.s "2")].find?
            (fun q => q.1 == p.1) with
        | some q => !(p.2 == q.2)
        | Option.none => false) :=
  map_neq_requires_all_keys_differ exRow "ids"
    ⟨Value.vmap [(Atom.s "a", Atom.s "1"), (Atom.s "b", Atom.s "2")], false⟩
    [(Atom.s "a", Atom.s "1"), (Atom.s "b", Atom.s "2")]
    [(Atom.s "a", Atom.s "2")] (by decide) (by decide) rfl

/-! Claim C3 (corrected). -/

/-- Claim C3 counterexample: with the unsupported operator "<" and an EMPTY
map operand against a map column, condition_match silently reports a match
instead of raising NotImplementedError - the operator check sits inside the
per-key loop, which an empty operand never enters. -/
theorem unsupported_op_empty_map_matches :
    condition_match exRow "ids" "<" (Value.vmap []) = Except.ok true := by
  decide

/-- Claim C3 (amended): for an operator that is neither `=` nor `!=` and an
operand whose Python type matches the materialized column value, the scalar,
list and NON-EMPTY map shapes all raise NotImplementedError; the empty map
operand alone skips the check and reports a match. -/
theorem unsupported_op_not_implemented (row : Row) (col op : String)
    (mtc v : Value) (hop1 : op ≠ "=") (hop2 : op ≠ "!=")
    (hv : get_column_value row col = Except.ok v) (hty : v.ty = mtc.ty) :
    (mtc ≠ Value.vmap [] →
      condition_match row col op mtc = Except.error CMErr.notImplemented) ∧
    (mtc = Value.vmap [] → condition_match row col op mtc = Except.ok true) := by
  have hnorm : cm_normalize row col mtc v = Except.ok (mtc, v) := by
    simp only [cm_normalize]
    rw [if_neg (fun hcon => hcon.1 hty.symm)]
  constructor
  · intro hne
    simp only [condition_match, hv, hnorm]
    cases mtc with
    | noneV => simp only [scalar_branch, if_neg hop1, if_neg hop2]
    | atom a => simp only [scalar_branch, if_neg hop1, if_neg hop2]
    | vlist xs => simp only [list_branch, if_neg hop1, if_neg hop2]
    | vmap pairs =>
      cases pairs with
      | nil => exact absurd rfl hne
      | cons hd tl => simp only [map_branch, if_neg hop1, if_neg hop2]
  · intro he
    subst he
    simp only [condition_match, hv, hnorm, map_branch]

/-- Claim C3 witness: instantiating the theorem at the fixture row's integer
column with operator "<" raises NotImplementedError. -/
theorem unsupported_op_not_implemented_inst :
    condition_match exRow "n" "<" (Value.atom (Atom.i 3)) =
      Except.error CMErr.notImplemented :=
  (unsupported_op_not_implemented exRow "n" "<" (Value.atom (Atom.i 3))
      (Value.atom (Atom.i 5)) (by decide) (by decide) (by decide) rfl).1
    (by decide)

/-! Claim C7 (corrected). -/

/-- Claim C7 counterexample: on the non-optional map column ids = (a: 1,
b: 2) and the same-typed operand (a: 1, b: 3), `=` and `!=` are NOT
complements: equality fails because key b differs, and inequality fails
because key a is equal, so both return no match. -/
theorem eq_neq_both_false_on_maps :
    condition_match exRow "ids" "="
        (Value.vmap [(Atom.s "a", Atom.s "1"), (Atom.s "b", Atom.s "3")]) =
      Except.ok false ∧
    condition_match exRow "ids" "!="
        (Value.vmap [(Atom.s "a", Atom.s "1"), (Atom.s "b", Atom.s "3")]) =
      Except.ok false := by
  constructor <;> decide

/-- Claim C7 (amended): on a row whose column is not optional, `=` and `!=`
with the same operand of matching type are logical complements for SCALAR
operands (neither a list nor a map); with set or map operands both can be
false at once, as the counterexample shows. -/
theorem scalar_eq_neq_complement (row : Row) (col : String) (c : Column)
    (mtc v : Value) (hc : Row.getCol row col = some c) (hopt : c.is_opt = false)
    (hv : get_column_value row col = Except.ok v) (hty : v.ty = mtc.ty)
    (hnl : mtc.ty ≠ PyTy.tList) (hnd : mtc.ty ≠ PyTy.tDict) :
    ∃ b : Bool, condition_match row col "=" mtc = Except.ok b ∧
      condition_match row col "!=" mtc = Except.ok (!b) := by
  have hnorm : cm_normalize row col mtc v = Except.ok (mtc, v) := by
    simp only [cm_normalize]
    rw [if_neg (fun hcon => hcon.1 hty.symm)]
  refine ⟨v == mtc, ?_, ?_⟩ <;>
    · simp only [condition_match, hv, hnorm]
      cases mtc with
      | vlist xs => exact absurd rfl hnl
      | vmap m => exact absurd rfl hnd
      | noneV => simp [scalar_branch]
      | atom a => simp [scalar_branch]

/-- Claim C7 witness: instantiating the amended theorem at the fixture row's
non-optional integer column with the scalar operand 5. -/
theorem scalar_eq_neq_complement_inst :
    ∃ b : Bool, condition_match exRow "n" "=" (Value.atom (Atom.i 5)) = Except.ok b ∧
      condition_match exRow "n" "!=" (Value.atom (Atom.i 5)) = Except.ok (!b) :=
  scalar_eq_neq_complement exRow "n" ⟨Value.atom (Atom.i 5), false⟩
    (Value.atom (Atom.i 5)) (Value.atom (Atom.i 5))
    (by decide) rfl (by decide) rfl (by decide) (by decide)

/-! Claim C4 (confirmed). -/

/-- Claim C4: in do_commit's retry loop a retry is never started past the
deadline - at the top of every iteration after the first, once the elapsed
time strictly exceeds the timeout the loop raises
RuntimeError("OVS transaction timed out") immediately, performing no further
observable step (no new handle, no command application, no log), whatever
statuses - including TRY_AGAIN - the server keeps returning; and the first
attempt always runs regardless of the clock: the outcome of a full run never
depends on the elapsed time observed before attempt 0, only on the clock at
the later checks. -/
theorem do_commit_never_retries_past_deadline :
    (∀ (env : HandleEnv) (t : Transaction) (k fuel : Nat),
        0 < k → t.timeout < env.elapsed k →
        do_commit_aux env t k (fuel + 1) =
          (Outcome.runtimeError "OVS transaction timed out", [])) ∧
    (∀ (env env2 : HandleEnv) (t : Transaction) (fuel : Nat),
        (∀ k, env.status k = env2.status k) →
        (∀ k, env.errorText k = env2.errorText k) →
        (∀ k, 0 < k → env.elapsed k = env2.elapsed k) →
        do_commit env t fuel = do_commit env2 t fuel) := by
  constructor
  · intro env t k fuel hk ht
    simp only [do_commit_aux]
    rw [if_pos ⟨hk, ht⟩]
  · intro env env2 t fuel h1 h2 h3
    suffices haux : ∀ (n : Nat) (k : Nat),
        do_commit_aux env t k n = do_commit_aux env2 t k n from haux fuel 0
    intro n
    induction n with
    | zero => intro k; rfl
    | succ m ih =>
      intro k
      simp only [do_commit_aux]
      have hcond : (0 < k ∧ t.timeout < env.elapsed k) ↔
          (0 < k ∧ t.timeout < env2.elapsed k) := by
        constructor
        · rintro ⟨hk, he⟩
          exact ⟨hk, by rw [← h3 k hk]; exact he⟩
        · rintro ⟨hk, he⟩
          exact ⟨hk, by rw [h3 k hk]; exact he⟩
      by_cases hcase : 0 < k ∧ t.timeout < env.elapsed k
      · rw [if_pos hcase, if_pos (hcond.mp hcase)]
      · rw [if_neg hcase, if_neg fun h => hcase (hcond.mpr h)]
        rw [h1 k]
        cases env2.status k with
        | tryAgain => rw [ih (k + 1)]
        | error => rw [h2 k]
        | notLocked => rfl
        | aborted => rfl
        | unchanged => rfl
        | success => rfl
        | unknown s => rfl

/-- Claim C4 witness: with a handle that always answers TRY_AGAIN and a clock
past the 10-second timeout, the loop entered at attempts = 1 fails fatally at
once with no observable step; and with the clock at 0 before attempt 0 versus
100 before attempt 0 (identical at every later check), a full run is
unchanged. -/
theorem do_commit_never_retries_past_deadline_inst :
    do_commit_aux envTry txnA 1 6 =
      (Outcome.runtimeError "OVS transaction timed out", []) ∧
    do_commit
        ⟨envTry.status, envTry.errorText, fun k => if k = 0 then 0 else 100⟩
        txnA 4 =
      do_commit envTry txnA 4 :=
  ⟨do_commit_never_retries_past_deadline.1 envTry txnA 1 5 (by decide) (by decide),
   do_commit_never_retries_past_deadline.2 _ envTry txnA 4
     (fun _ => rfl) (fun _ => rfl)
     (fun k hk => by simp [envTry, Nat.pos_iff_ne_zero.mp hk])⟩

/-! Claim C5 (confirmed). -/

/-- Claim C5: when commit_block reports ERROR or NOT_LOCKED and no command's
apply step raised, do_commit terminates the transaction: it builds the
diagnostic message (the lock-not-acquired text for NOT_LOCKED, the handle's
get_error() text for ERROR, both behind the "OVSDB Error: " prefix), emits
that message to the error log exactly when log_errors is enabled, raises a
RuntimeError carrying the message when check_error is enabled, and otherwise
returns no result without raising. -/
theorem do_commit_error_not_locked_terminal (env : HandleEnv) (t : Transaction)
    (k fuel : Nat) (hdl : k = 0 ∨ env.elapsed k ≤ t.timeout)
    (hnr : ∀ c ∈ t.commands, c.raises = false) :
    (env.status k = TxnStatus.error →
      do_commit_aux env t k (fuel + 1) =
        ((if t.check_error then
            Outcome.runtimeError ("OVSDB Error: " ++ env.errorText k)
          else Outcome.noResult),
         cmdRunEvents (k + 1) 0 t.commands ++
           (if t.log_errors then
              [Event.logError ("OVSDB Error: " ++ env.errorText k)]
            else []))) ∧
    (env.status k = TxnStatus.notLocked →
      do_commit_aux env t k (fuel + 1) =
        ((if t.check_error then
            Outcome.runtimeError ("OVSDB Error: " ++ not_locked_text)
          else Outcome.noResult),
         cmdRunEvents (k + 1) 0 t.commands ++
           (if t.log_errors then
              [Event.logError ("OVSDB Error: " ++ not_locked_text)]
            else []))) := by
  have hto : ¬(0 < k ∧ t.timeout < env.elapsed k) := by
    rcases hdl with h0 | hle
    · subst h0
      rintro ⟨hk, _⟩
      exact Nat.lt_irrefl 0 hk
    · rintro ⟨_, hgt⟩
      exact Nat.not_le_of_lt hgt hle
  constructor <;> intro hst <;>
    simp only [do_commit_aux, if_neg hto,
      run_idl_loop_no_raise t.check_error (k + 1) t.commands 0 hnr, hst,
      Bool.false_eq_true, if_false]

/-- Claim C5 witness: the always-ERROR handle with error text "boom" against
the one-command strict transaction: a RuntimeError carrying the message, and
the message logged. -/
theorem do_commit_error_not_locked_terminal_inst :
    do_commit_aux envErr txnA 0 3 =
      ((if txnA.check_error then
          Outcome.runtimeError ("OVSDB Error: " ++ envErr.errorText 0)
        else Outcome.noResult),
       cmdRunEvents 1 0 txnA.commands ++
         (if txnA.log_errors then
            [Event.logError ("OVSDB Error: " ++ envErr.errorText 0)]
          else [])) :=
  (do_commit_error_not_locked_terminal envErr txnA 0 2 (Or.inl rfl)
      (by decide)).1 rfl

/-! Claim C6 (confirmed). -/

/-- Claim C6: when commit_block reports SUCCESS or UNCHANGED (and no
command's apply step raised), do_commit returns the list of every queued
command's result attribute in submission order; the post_commit hook - which
runs every command's post-commit step in order - is invoked on SUCCESS but
not on UNCHANGED; and an unrecognized status is logged and then follows the
same result-list return. -/
theorem do_commit_success_unchanged_results (env : HandleEnv) (t : Transaction)
    (k fuel : Nat) (hdl : k = 0 ∨ env.elapsed k ≤ t.timeout)
    (hnr : ∀ c ∈ t.commands, c.raises = false) :
    (env.status k = TxnStatus.success →
      do_commit_aux env t k (fuel + 1) =
        (Outcome.results (t.commands.map Command.result),
         cmdRunEvents (k + 1) 0 t.commands ++ postCommitEvents 0 t.commands)) ∧
    (env.status k = TxnStatus.unchanged →
      do_commit_aux env t k (fuel + 1) =
        (Outcome.results (t.commands.map Command.result),
         cmdRunEvents (k + 1) 0 t.commands ++ [Event.debugUnchanged])) ∧
    (∀ s : String, env.status k = TxnStatus.unknown s →
      do_commit_aux env t k (fuel + 1) =
        (Outcome.results (t.commands.map Command.result),
         cmdRunEvents (k + 1) 0 t.commands ++ [Event.debugUnknownStatus s])) := by
  have hto : ¬(0 < k ∧ t.timeout < env.elapsed k) := by
    rcases hdl with h0 | hle
    · subst h0
      rintro ⟨hk, _⟩
      exact Nat.lt_irrefl 0 hk
    · rintro ⟨_, hgt⟩
      exact Nat.not_le_of_lt hgt hle
  refine ⟨fun hst => ?_, fun hst => ?_, fun s hst => ?_⟩ <;>
    simp only [do_commit_aux, if_neg hto,
      run_idl_loop_no_raise t.check_error (k + 1) t.commands 0 hnr, hst,
      Bool.false_eq_true, if_false]

/-- Claim C6 witness: the always-SUCCESS handle against the one-command
transaction returns the result list and runs the post-commit step. -/
theorem do_commit_success_unchanged_results_inst :
    do_commit_aux envSucc txnA 0 3 =
      (Outcome.results (txnA.commands.map Command.result),
       cmdRunEvents 1 0 txnA.commands ++ postCommitEvents 0 txnA.commands) :=
  (do_commit_success_unchanged_results envSucc txnA 0 2 (Or.inl rfl)
      (by decide)).1 rfl

/-! Claim C2 (code_bug). -/

/-- Claim C2, evaluating the code at the failing input: resolving the
non-uuid record "myqueue" against the uuid-only table Queue.  The source line
is `raise ValueError("Table %s can only be queried by UUID") % table`: the
format operator is applied to the ValueError instance instead of the format
string, so the evaluation of the raised expression itself raises a TypeError
and the intended ValueError - which would have named the table - never
escapes.  The claim (and the spec's usage-error contract) describe the
intended behavior; the code diverges on every non-uuid record. -/
theorem queue_nonuuid_gives_type_error :
    row_by_record queueIdl "linux" "Queue" (Record.str "myqueue") =
      Except.error (ResolveErr.typeError
        "unsupported operand type for percent: ValueError and str") := by
  decide

/-! Claim C8 (confirmed). -/

/-- Claim C8: when the record string parses as a uuid that is absent from the
queried table, row_by_record fails immediately with
RowNotFound(table, uuid, record) on every platform other than win32, while on
win32 the same call silently falls through to the lookup-strategy
(name-based) resolution tail. -/
theorem uuid_absent_platform_split (idl_ : Idl) (plat table srec u : String)
    (t : Table) (ht : idl_.getTable table = some t)
    (hp : uuidParse srec = some u) (habs : t.rowByUuid u = Option.none) :
    (plat ≠ "win32" →
      row_by_record idl_ plat table (Record.str srec) =
        Except.error (ResolveErr.rowNotFound table "uuid"
          (Value.atom (Atom.s srec)))) ∧
    row_by_record idl_ "win32" table (Record.str srec) =
      record_lookup idl_ table t (Value.atom (Atom.s srec)) := by
  constructor
  · intro hplat
    simp only [row_by_record, ht, hp, habs, if_pos hplat]
  · simp only [row_by_record, ht, hp, habs]
    rw [if_neg (by simp)]

/-- Claim C8 witness: a uuid-shaped record absent from the empty Flow_Table
fails with RowNotFound on "linux" and falls through to the lookup tail on
"win32". -/
theorem uuid_absent_platform_split_inst :
    ("linux" ≠ "win32" →
      row_by_record flowIdl "linux" "Flow_Table"
          (Record.str "12345678-1234-1234-1234-123456789abc") =
        Except.error (ResolveErr.rowNotFound "Flow_Table" "uuid"
          (Value.atom (Atom.s "12345678-1234-1234-1234-123456789abc")))) ∧
    row_by_record flowIdl "win32" "Flow_Table"
        (Record.str "12345678-1234-1234-1234-123456789abc") =
      record_lookup flowIdl "Flow_Table" ⟨[], [["name"]]⟩
        (Value.atom (Atom.s "12345678-1234-1234-1234-123456789abc")) :=
  uuid_absent_platform_split flowIdl "linux" "Flow_Table"
    "12345678-1234-1234-1234-123456789abc"
    "12345678-1234-1234-1234-123456789abc" ⟨[], [["name"]]⟩
    (by decide) (by decide) (by decide)

/-! Claim C10 (corrected). -/

/-- Claim C10 counterexample: SSL's lookup-strategy entry names the target
table Open_vSwitch with no column, yet resolving a non-uuid record against
SSL returns the first row of the QUERIED table SSL (sslRow), not the first
row of the target table Open_vSwitch (ovsRow) - the code reads
`next(iter(t.rows.values()))` off the queried table. -/
theorem ssl_singleton_returns_queried_table_row :
    row_by_record sslIdl "linux" "SSL" (Record.str "whatever") =
      Except.ok sslRow ∧ sslRow ≠ ovsRow := by
  constructor
  · decide
  · decide

/-- Claim C10 (amended): for every table whose lookup-strategy entry names a
target table but no column, resolving a non-uuid record returns the first row
of the QUERIED table itself when that table is non-empty - ignoring the
record, the strategy's target table and its back-reference column - and
raises a bare StopIteration when the queried table is empty, an error that is
neither RowNotFound nor any OvsdbAppException. -/
theorem no_column_lookup_first_row_of_queried_table (idl_ : Idl)
    (plat table srec tt : String) (t : Table)
    (ht : idl_.getTable table = some t) (hs : uuidParse srec = Option.none)
    (hrt : (lookup_table_get table t).table = some tt)
    (hrc : (lookup_table_get table t).column = Option.none) :
    row_by_record idl_ plat table (Record.str srec) =
      (match t.rows with
       | [] => Except.error ResolveErr.stopIteration
       | r :: _ => Except.ok r) := by
  simp only [row_by_record, ht, hs, record_lookup, hrt, hrc]

/-- Claim C10 witness: the amended theorem instantiated at the SSL fixture
returns SSL's own first row. -/
theorem no_column_lookup_first_row_of_queried_table_inst :
    row_by_record sslIdl "linux" "SSL" (Record.str "whatever") =
      (match (⟨[sslRow], []⟩ : Table).rows with
       | [] => Except.error ResolveErr.stopIteration
       | r :: _ => Except.ok r) :=
  no_column_lookup_first_row_of_queried_table sslIdl "linux" "SSL" "whatever"
    "Open_vSwitch" ⟨[sslRow], []⟩ (by decide) (by decide) (by decide) (by decide)

/-! Claim C9 (confirmed). -/

/-- Claim C9: db_replace_record leaves its argument untouched (same object,
same structure) whenever the argument is not a Command and holds no Command
among its top-level mapping values or sequence elements; a bare Command
becomes its result (a different object); Commands inside a mutable dict or
list are replaced in place by their results (the argument object itself is
returned); and a tuple containing a Command yields a fresh tuple of the same
type with every Command element replaced by its result. -/
theorem db_replace_record_frame :
    (∀ o : DbObj, topLevelNoCmd o = true →
      db_replace_record o = o ∧ db_replace_same_object o = true) ∧
    (∀ r : DbObj, db_replace_record (DbObj.cmdV r) = r ∧
      db_replace_same_object (DbObj.cmdV r) = false) ∧
    (∀ es : List (String × DbObj),
      db_replace_record (DbObj.mapV es) =
          DbObj.mapV (es.map fun p => (p.1, replaceIfCmd p.2)) ∧
        db_replace_same_object (DbObj.mapV es) = true) ∧
    (∀ xs : List DbObj,
      db_replace_record (DbObj.listV xs) = DbObj.listV (xs.map replaceIfCmd) ∧
        db_replace_same_object (DbObj.listV xs) = true) ∧
    (∀ xs : List DbObj, xs.any DbObj.isCmd = true →
      db_replace_record (DbObj.tupleV xs) = DbObj.tupleV (xs.map replaceIfCmd) ∧
        db_replace_same_object (DbObj.tupleV xs) = false) := by
  have hrep : ∀ v : DbObj, v.isCmd = false → replaceIfCmd v = v := by
    intro v hv
    cases v <;> first | rfl | exact absurd hv (by simp [DbObj.isCmd])
  have hmapid : ∀ es : List (String × DbObj), (∀ p ∈ es, p.2.isCmd = false) →
      es.map (fun p => (p.1, replaceIfCmd p.2)) = es := by
    intro es h
    induction es with
    | nil => rfl
    | cons p rest ih =>
      simp only [List.map_cons, hrep p.2 (h p (List.mem_cons_self _ _)),
        ih fun q hq => h q (List.mem_cons_of_mem _ hq)]
  have hlistid : ∀ xs : List DbObj, (∀ v ∈ xs, v.isCmd = false) →
      xs.map replaceIfCmd = xs := by
    intro xs h
    induction xs with
    | nil => rfl
    | cons v rest ih =>
      simp only [List.map_cons, hrep v (h v (List.mem_cons_self _ _)),
        ih fun w hw => h w (List.mem_cons_of_mem _ hw)]
  refine ⟨?_, fun r => ⟨rfl, rfl⟩, fun es => ⟨rfl, rfl⟩, fun xs => ⟨rfl, rfl⟩,
    fun xs hx => ⟨rfl, ?_⟩⟩
  · intro o h
    cases o with
    | atomV a => exact ⟨rfl, rfl⟩
    | noneV => exact ⟨rfl, rfl⟩
    | strV s => exact ⟨rfl, rfl⟩
    | cmdV r => exact absurd h (by simp [topLevelNoCmd])
    | mapV es =>
      have hall : ∀ p ∈ es, p.2.isCmd = false := by
        intro p hp
        have := (List.all_eq_true.mp h) p hp
        simpa using this
      exact ⟨by simp only [db_replace_record, hmapid es hall], rfl⟩
    | listV xs =>
      have hall : ∀ v ∈ xs, v.isCmd = false := by
        intro v hv
        have := (List.all_eq_true.mp h) v hv
        simpa using this
      exact ⟨by simp only [db_replace_record, hlistid xs hall], rfl⟩
    | tupleV xs =>
      have hall : ∀ v ∈ xs, v.isCmd = false := by
        intro v hv
        have := (List.all_eq_true.mp h) v hv
        simpa using this
      refine ⟨by simp only [db_replace_record, hlistid xs hall], ?_⟩
      simp only [db_replace_same_object, Bool.not_eq_true']
      rw [List.any_eq_false]
      intro v hv
      simp [hall v hv]
  · simp only [db_replace_same_object, hx, Bool.not_true]

/-- Claim C9 witness: an untouched command-free list, and a tuple containing
a Command rebuilt with the result substituted. -/
theorem db_replace_record_frame_inst :
    (db_replace_record (DbObj.listV [DbObj.atomV (Atom.i 1)]) =
        DbObj.listV [DbObj.atomV (Atom.i 1)] ∧
      db_replace_same_object (DbObj.listV [DbObj.atomV (Atom.i 1)]) = true) ∧
    (db_replace_record (DbObj.tupleV [DbObj.cmdV (DbObj.atomV (Atom.i 2))]) =
        DbObj.tupleV ([DbObj.cmdV (DbObj.atomV (Atom.i 2))].map replaceIfCmd) ∧
      db_replace_same_object
        (DbObj.tupleV [DbObj.cmdV (DbObj.atomV (Atom.i 2))]) = false) :=
  ⟨db_replace_record_frame.1 (DbObj.listV [DbObj.atomV (Atom.i 1)]) (by decide),
   db_replace_record_frame.2.2.2.2 [DbObj.cmdV (DbObj.atomV (Atom.i 2))]
     (by decide)⟩

end Ovsdbapp
